import Mathlib

/-!
# Zircon kernel objects: koids, dispatchers, state trackers and cookie jars

A shallow embedding of

* `kernel/object/dispatcher.cpp` (`GenerateKernelObjectId`, the `Dispatcher`
  constructor, `Dispatcher::add_observer`, `Dispatcher::user_signal`),
* `kernel/object/include/object/state_tracker.h` (`CookieJar`, the
  `StateTracker` constructor and `GetSignalsState`).

Machine integers are natural numbers: `zx_signals_t` is `uint32_t`, so the C
complement `~` is `not32`; `zx_koid_t` is `uint64_t`, so `fetch_add` wraps
modulo `2 ^ 64`.

The constants `ZX_USER_SIGNAL_ALL`, `ZX_SIGNAL_LAST_HANDLE` and
`ZX_KOID_INVALID` come from `zircon/types.h`, which is not part of the sources
at hand; every definition that uses one takes it as an explicit argument and
every theorem holds for all values of them.

The bodies of the `StateTracker` methods (`state_tracker.cpp`) are not part of
the sources at hand either. The dispatcher methods take the tracker method they
call as an argument; the methods whose behaviour matters are modelled from
the specification and are marked as such.
-/

namespace Zircon

/-! ## Machine integers -/

/-- Bitwise complement at type `uint32_t` (the C operator `~` on a
`zx_signals_t`). -/
def not32 (x : Nat) : Nat := 2 ^ 32 - 1 - x % 2 ^ 32

/-! ## Status codes -/

/-- Modelled from the spec: the `zx_status_t` codes named by the object layer
(`zircon/errors.h` is not part of the sources at hand). Only the names and
their distinctness are used, never the numeric values. -/
inductive zx_status_t
  | ZX_OK
  | ZX_ERR_NOT_SUPPORTED
  | ZX_ERR_INVALID_ARGS
  | ZX_ERR_ACCESS_DENIED
  deriving DecidableEq, Repr

open zx_status_t

/-! ## Kernel object ids (`dispatcher.cpp`) -/

/-- Initial value of the counter: `fbl::atomic<zx_koid_t> global_koid(1024ULL)`.
The first 1K koids are reserved. -/
def global_koid_init : Nat := 1024

/-- The function `GenerateKernelObjectId`: `global_koid.fetch_add(1ULL)`
returns the previous value of the 64-bit counter and stores the incremented
value, which wraps modulo `2 ^ 64`. The result is the returned koid and the new
counter. -/
def GenerateKernelObjectId (global_koid : Nat) : Nat × Nat :=
  (global_koid, (global_koid + 1) % 2 ^ 64)

/-- The koids returned by `n` sequential calls of `GenerateKernelObjectId`
starting with the counter at `global_koid`, in call order, and the counter
afterwards. -/
def GenerateKernelObjectIds : Nat → Nat → List Nat × Nat
  | 0, global_koid => ([], global_koid)
  | n + 1, global_koid =>
    let r := GenerateKernelObjectId global_koid
    let rs := GenerateKernelObjectIds n r.2
    (r.1 :: rs.1, rs.2)

/-! ## Dispatcher (`dispatcher.cpp`) -/

/-- A kernel object as seen by the base class `Dispatcher`: the members
`koid_` and `handle_count_`, and the result of the virtual
`get_state_tracker()`, which is `none` for the null pointer and otherwise the
state of the tracker the pointer refers to. `T` is the type of tracker
states. -/
structure Dispatcher (T : Type) where
  koid_ : Nat
  handle_count_ : Nat
  get_state_tracker : Option T
  deriving DecidableEq, Repr

/-- The constructor `Dispatcher::Dispatcher()`:
`koid_(GenerateKernelObjectId()), handle_count_(0u)`. The tracker is what the
concrete subclass supplies. Returns the object and the new counter. -/
def Dispatcher.new {T : Type} (state_tracker : Option T) (global_koid : Nat) :
    Dispatcher T × Nat :=
  let r := GenerateKernelObjectId global_koid
  (⟨r.1, 0, state_tracker⟩, r.2)

/-- The `koid_` of `n` dispatchers constructed in sequence starting with the
counter at `global_koid`, in construction order, and the counter afterwards.
The `i`-th object is built with tracker `trackers i`. -/
def Dispatcher.new_koids {T : Type} (trackers : Nat → Option T) :
    Nat → Nat → List Nat × Nat
  | 0, global_koid => ([], global_koid)
  | n + 1, global_koid =>
    let r := Dispatcher.new (trackers 0) global_koid
    let rs := Dispatcher.new_koids (fun i => trackers (i + 1)) n r.2
    (r.1.koid_ :: rs.1, rs.2)

/-- The method `Dispatcher::add_observer(observer)`. `AddObserver` is the
tracker method `StateTracker::AddObserver(observer, cinfo)` as a state
transformer; the count info `nullptr` is `none`. Returns the status and the
object afterwards. -/
def Dispatcher.add_observer {T Obs CInfo : Type}
    (AddObserver : T → Obs → Option CInfo → T)
    (d : Dispatcher T) (observer : Obs) : zx_status_t × Dispatcher T :=
  match d.get_state_tracker with
  | none => (ZX_ERR_NOT_SUPPORTED, d)
  | some state_tracker =>
    (ZX_OK, ⟨d.koid_, d.handle_count_, some (AddObserver state_tracker observer none)⟩)

/-- The method `Dispatcher::user_signal(clear_mask, set_mask, peer)`.
`UpdateState` is the tracker method `StateTracker::UpdateState(clear_mask,
set_mask)` as a state transformer. Returns the status and the object
afterwards. -/
def Dispatcher.user_signal {T : Type} (ZX_USER_SIGNAL_ALL : Nat)
    (UpdateState : T → Nat → Nat → T)
    (d : Dispatcher T) (clear_mask set_mask : Nat) (peer : Bool) :
    zx_status_t × Dispatcher T :=
  if peer then (ZX_ERR_NOT_SUPPORTED, d)
  else
    match d.get_state_tracker with
    | none => (ZX_ERR_NOT_SUPPORTED, d)
    | some state_tracker =>
      if set_mask &&& not32 ZX_USER_SIGNAL_ALL ≠ 0 ∨
          clear_mask &&& not32 ZX_USER_SIGNAL_ALL ≠ 0 then
        (ZX_ERR_INVALID_ARGS, d)
      else
        (ZX_OK, ⟨d.koid_, d.handle_count_, some (UpdateState state_tracker clear_mask set_mask)⟩)

/-! ### Recording tracker

A tracker whose state is the list of calls made on it, used to count the
calls a dispatcher method makes. -/

/-- A call of a tracker method made by a dispatcher method. -/
inductive TrackerCall (Obs CInfo : Type)
  | AddObserver (observer : Obs) (cinfo : Option CInfo)
  | UpdateState (clear_mask set_mask : Nat)
  deriving DecidableEq, Repr

/-- Recording `AddObserver`: append the call to the log. -/
def TrackerCall.logAddObserver {Obs CInfo : Type} (log : List (TrackerCall Obs CInfo))
    (observer : Obs) (cinfo : Option CInfo) : List (TrackerCall Obs CInfo) :=
  log ++ [TrackerCall.AddObserver observer cinfo]

/-- Recording `UpdateState`: append the call to the log. -/
def TrackerCall.logUpdateState {Obs CInfo : Type} (log : List (TrackerCall Obs CInfo))
    (clear_mask set_mask : Nat) : List (TrackerCall Obs CInfo) :=
  log ++ [TrackerCall.UpdateState clear_mask set_mask]

/-! ## StateTracker (`state_tracker.h`) -/

/-- The members of `StateTracker`: the signal mask `signals_` and the list
`observers_` of active observers. `Obs` is the type of observer states. -/
structure StateTracker (Obs : Type) where
  signals_ : Nat
  observers_ : List Obs
  deriving DecidableEq, Repr

/-- The constructor `StateTracker(zx_signals_t signals)`:
`signals_(signals | ZX_SIGNAL_LAST_HANDLE)`, with no observers. -/
def StateTracker.new {Obs : Type} (ZX_SIGNAL_LAST_HANDLE : Nat) (signals : Nat) :
    StateTracker Obs :=
  ⟨signals ||| ZX_SIGNAL_LAST_HANDLE, []⟩

/-- The constructor with its default argument `signals = 0u`. -/
def StateTracker.new_default {Obs : Type} (ZX_SIGNAL_LAST_HANDLE : Nat) : StateTracker Obs :=
  StateTracker.new ZX_SIGNAL_LAST_HANDLE 0

/-- The accessor `GetSignalsState()`: `return signals_`. -/
def StateTracker.GetSignalsState {Obs : Type} (t : StateTracker Obs) : Nat :=
  t.signals_

/-- Modelled from the spec: the body of `StateTracker::UpdateInternalLocked`
(`state_tracker.cpp`) is missing. "Iterate observers, invoking each one's
state-change callback with the new signal value; any observer whose callback
reports 'trigger satisfied and should be removed' is unlinked."
`OnStateChange o signals` is the callback: the observer afterwards and whether
it asks for removal. Returns the observers still linked and the callbacks
invoked (observer and signal value), both in list order. -/
def StateTracker.UpdateInternalLocked {Obs : Type} (OnStateChange : Obs → Nat → Obs × Bool)
    (signals : Nat) : List Obs → List Obs × List (Obs × Nat)
  | [] => ([], [])
  | o :: rest =>
    let r := OnStateChange o signals
    let rs := StateTracker.UpdateInternalLocked OnStateChange signals rest
    (if r.2 then rs.1 else r.1 :: rs.1, (o, signals) :: rs.2)

/-- Modelled from the spec: the body of `StateTracker::UpdateState`
(`state_tracker.cpp`) is missing. "Under the lock, compute
`new_signals = (signals & ~clear_mask) | set_mask`; if unchanged, no
notification occurs. If changed, store the new mask, then iterate observers,
invoking each one's state-change callback with the new signal value."
Returns the tracker afterwards and the observer callbacks invoked. -/
def StateTracker.UpdateState {Obs : Type} (OnStateChange : Obs → Nat → Obs × Bool)
    (t : StateTracker Obs) (clear_mask set_mask : Nat) :
    StateTracker Obs × List (Obs × Nat) :=
  let new_signals := (t.signals_ &&& not32 clear_mask) ||| set_mask
  if new_signals = t.signals_ then (t, [])
  else
    let r := StateTracker.UpdateInternalLocked OnStateChange new_signals t.observers_
    (⟨new_signals, r.1⟩, r.2)

/-- The tracker after `UpdateState`, the form in which a dispatcher calls it. -/
def StateTracker.UpdateState_tracker {Obs : Type} (OnStateChange : Obs → Nat → Obs × Bool)
    (t : StateTracker Obs) (clear_mask set_mask : Nat) : StateTracker Obs :=
  (StateTracker.UpdateState OnStateChange t clear_mask set_mask).1

/-! ## CookieJar (`state_tracker.h`) -/

/-- The members of `CookieJar`: `scope_` and `cookie_`. -/
structure CookieJar where
  scope_ : Nat
  cookie_ : Nat
  deriving DecidableEq, Repr

/-- The constructor `CookieJar() : scope_(ZX_KOID_INVALID), cookie_(0)`. -/
def CookieJar.new (ZX_KOID_INVALID : Nat) : CookieJar :=
  ⟨ZX_KOID_INVALID, 0⟩

/-- Modelled from the spec: the body of `StateTracker::SetCookie`
(`state_tracker.cpp`) is missing. "`SetCookie` succeeds only if the jar is
unset or already scoped to the caller's given scope; otherwise fails with
`AccessDenied`-class error", where "a jar with `scope == INVALID` is unset".
Returns the status and the jar afterwards. -/
def StateTracker.SetCookie (ZX_KOID_INVALID : Nat) (cookiejar : CookieJar)
    (scope cookie : Nat) : zx_status_t × CookieJar :=
  if cookiejar.scope_ = ZX_KOID_INVALID ∨ cookiejar.scope_ = scope then
    (ZX_OK, ⟨scope, cookie⟩)
  else
    (ZX_ERR_ACCESS_DENIED, cookiejar)

/-- Modelled from the spec: the body of `StateTracker::GetCookie`
(`state_tracker.cpp`) is missing. "`GetCookie` succeeds only if the jar's
recorded scope matches the caller's scope, else fails with a mismatch error."
Returns the status and the value written through the out-parameter, if any. -/
def StateTracker.GetCookie (cookiejar : CookieJar) (scope : Nat) :
    zx_status_t × Option Nat :=
  if cookiejar.scope_ = scope then (ZX_OK, some cookiejar.cookie_)
  else (ZX_ERR_ACCESS_DENIED, none)

/-- Modelled from the spec: the body of `StateTracker::InvalidateCookie`
(`state_tracker.cpp`) is missing. "`InvalidateCookie` unconditionally resets
the jar to unset." Returns the status and the jar afterwards. -/
def StateTracker.InvalidateCookie (ZX_KOID_INVALID : Nat) (cookiejar : CookieJar) :
    zx_status_t × CookieJar :=
  (ZX_OK, ⟨ZX_KOID_INVALID, cookiejar.cookie_⟩)

/-! ## Predicates on signal masks -/

/-- Every bit set in `mask` is a bit of `all`: `mask` uses only bits of `all`. -/
def SignalsWithin (all mask : Nat) : Prop := mask &&& all = mask

instance (all mask : Nat) : Decidable (SignalsWithin all mask) :=
  inferInstanceAs (Decidable (mask &&& all = mask))

/-- No bit is set in both masks. -/
def SignalsDisjoint (a b : Nat) : Prop := a &&& b = 0

instance (a b : Nat) : Decidable (SignalsDisjoint a b) :=
  inferInstanceAs (Decidable (a &&& b = 0))

/-! ## Bit-level facts -/

theorem testBit_not32 (x i : Nat) :
    (not32 x).testBit i = (decide (i < 32) && !x.testBit i) := by
  have h : x % 2 ^ 32 < 2 ^ 32 := Nat.mod_lt _ (by norm_num)
  have e : not32 x = 2 ^ 32 - (x % 2 ^ 32 + 1) := by
    unfold not32
    omega
  rw [e, Nat.testBit_two_pow_sub_succ h, Nat.testBit_mod_two_pow]
  by_cases hi : i < 32 <;> simp [hi]

theorem lt_32_of_testBit {x i : Nat} (hx : x < 2 ^ 32) (h : x.testBit i = true) : i < 32 := by
  by_contra hi
  have h32 : 2 ^ 32 ≤ 2 ^ i := Nat.pow_le_pow_right (by norm_num) (by omega)
  have := Nat.testBit_lt_two_pow (Nat.lt_of_lt_of_le hx h32)
  simp [h] at this

theorem and_not32_eq_zero_of_within {all mask : Nat} (h : SignalsWithin all mask) :
    mask &&& not32 all = 0 := by
  apply Nat.eq_of_testBit_eq
  intro i
  have hi := congrArg (fun n => Nat.testBit n i) h
  simp only [Nat.testBit_and] at hi
  rw [Nat.testBit_and, testBit_not32, Nat.zero_testBit]
  cases hm : mask.testBit i <;> cases ha : all.testBit i <;> simp_all

theorem within_of_and_not32_eq_zero {all mask : Nat} (hm : mask < 2 ^ 32)
    (h : mask &&& not32 all = 0) : SignalsWithin all mask := by
  apply Nat.eq_of_testBit_eq
  intro i
  have hi := congrArg (fun n => Nat.testBit n i) h
  simp only [Nat.testBit_and, testBit_not32, Nat.zero_testBit] at hi
  rw [Nat.testBit_and]
  cases hb : mask.testBit i
  · simp
  · have h32 := lt_32_of_testBit hm hb
    cases ha : all.testBit i <;> simp_all

theorem and_not32_eq_zero_iff {all mask : Nat} (hm : mask < 2 ^ 32) :
    mask &&& not32 all = 0 ↔ SignalsWithin all mask :=
  ⟨within_of_and_not32_eq_zero hm, and_not32_eq_zero_of_within⟩

/-! ## Facts about the modelled tracker -/

theorem UpdateState_signals {Obs : Type} (OnStateChange : Obs → Nat → Obs × Bool)
    (t : StateTracker Obs) (clear_mask set_mask : Nat) :
    (StateTracker.UpdateState OnStateChange t clear_mask set_mask).1.signals_ =
      (t.signals_ &&& not32 clear_mask) ||| set_mask := by
  unfold StateTracker.UpdateState
  by_cases h : (t.signals_ &&& not32 clear_mask) ||| set_mask = t.signals_
  · simp only [h, if_true]
  · simp only [h, if_false]

/-! ## Dispatcher::user_signal -/

theorem user_signal_peer {T : Type} (ALL : Nat) (UpdateState : T → Nat → Nat → T)
    (d : Dispatcher T) (clear_mask set_mask : Nat) :
    Dispatcher.user_signal ALL UpdateState d clear_mask set_mask true =
      (ZX_ERR_NOT_SUPPORTED, d) := by
  simp [Dispatcher.user_signal]

theorem user_signal_no_tracker {T : Type} (ALL : Nat) (UpdateState : T → Nat → Nat → T)
    (d : Dispatcher T) (clear_mask set_mask : Nat) (peer : Bool)
    (h : d.get_state_tracker = none) :
    Dispatcher.user_signal ALL UpdateState d clear_mask set_mask peer =
      (ZX_ERR_NOT_SUPPORTED, d) := by
  cases peer <;> simp [Dispatcher.user_signal, h]

theorem user_signal_invalid {T : Type} (ALL : Nat) (UpdateState : T → Nat → Nat → T)
    (d : Dispatcher T) (t : T) (clear_mask set_mask : Nat)
    (ht : d.get_state_tracker = some t)
    (h : set_mask &&& not32 ALL ≠ 0 ∨ clear_mask &&& not32 ALL ≠ 0) :
    Dispatcher.user_signal ALL UpdateState d clear_mask set_mask false =
      (ZX_ERR_INVALID_ARGS, d) := by
  simp only [Dispatcher.user_signal, ht, Bool.false_eq_true, if_false]
  rw [if_pos h]

theorem user_signal_valid {T : Type} (ALL : Nat) (UpdateState : T → Nat → Nat → T)
    (d : Dispatcher T) (t : T) (clear_mask set_mask : Nat)
    (ht : d.get_state_tracker = some t)
    (hs : set_mask &&& not32 ALL = 0) (hc : clear_mask &&& not32 ALL = 0) :
    Dispatcher.user_signal ALL UpdateState d clear_mask set_mask false =
      (ZX_OK, ⟨d.koid_, d.handle_count_, some (UpdateState t clear_mask set_mask)⟩) := by
  simp only [Dispatcher.user_signal, ht, Bool.false_eq_true, if_false]
  rw [if_neg (by simp [hs, hc])]

/-- C1, as stated, fails: with `ZX_USER_SIGNAL_ALL = 0xff000000` the mask
`clear_mask = 1` has a bit outside the user range, yet `user_signal` answers
`ZX_ERR_NOT_SUPPORTED`, not `ZX_ERR_INVALID_ARGS`, both when `peer` is set (on
an object with a tracker) and when the object has no tracker. -/
theorem user_signal_invalid_mask_not_always_invalid_args :
    ¬ SignalsWithin 0xff000000 1 ∧
    (Dispatcher.user_signal 0xff000000
        (StateTracker.UpdateState_tracker (fun (o : Unit) _ => (o, false)))
        ⟨1024, 1, some (StateTracker.new 0x80 0)⟩ 1 0 true).1 = ZX_ERR_NOT_SUPPORTED ∧
    (Dispatcher.user_signal 0xff000000
        (StateTracker.UpdateState_tracker (fun (o : Unit) _ => (o, false)))
        ⟨1024, 1, none⟩ 1 0 false).1 = ZX_ERR_NOT_SUPPORTED ∧
    ZX_ERR_NOT_SUPPORTED ≠ ZX_ERR_INVALID_ARGS := by
  refine ⟨by decide, ?_, ?_, by decide⟩
  · rw [user_signal_peer]
  · rw [user_signal_no_tracker _ _ _ _ _ _ rfl]

/-- C1, amended: when `peer` is false and the object has a state tracker, and
the masks are 32-bit values, a `clear_mask` or `set_mask` with a bit outside
`ZX_USER_SIGNAL_ALL` makes `user_signal` fail with `ZX_ERR_INVALID_ARGS`. -/
theorem user_signal_invalid_args {T : Type} (ALL : Nat) (UpdateState : T → Nat → Nat → T)
    (d : Dispatcher T) (t : T) (clear_mask set_mask : Nat)
    (ht : d.get_state_tracker = some t)
    (hclear : clear_mask < 2 ^ 32) (hset : set_mask < 2 ^ 32)
    (h : ¬ SignalsWithin ALL clear_mask ∨ ¬ SignalsWithin ALL set_mask) :
    (Dispatcher.user_signal ALL UpdateState d clear_mask set_mask false).1 =
      ZX_ERR_INVALID_ARGS := by
  rw [user_signal_invalid ALL UpdateState d t clear_mask set_mask ht]
  rcases h with h | h
  · exact Or.inr (fun h0 => h (within_of_and_not32_eq_zero hclear h0))
  · exact Or.inl (fun h0 => h (within_of_and_not32_eq_zero hset h0))

/-- Witness for C1 (amended): clearing bit 0 on an object with a tracker. -/
theorem user_signal_invalid_args_witness :
    (Dispatcher.user_signal 0xff000000
        (StateTracker.UpdateState_tracker (fun (o : Unit) _ => (o, false)))
        ⟨1024, 1, some (StateTracker.new 0x80 0)⟩ 1 0 false).1 = ZX_ERR_INVALID_ARGS :=
  user_signal_invalid_args 0xff000000 _ ⟨1024, 1, some (StateTracker.new 0x80 0)⟩
    (StateTracker.new 0x80 0) 1 0 rfl (by decide) (by decide) (Or.inl (by decide))

/-- C2: for all masks, `user_signal` returns `ZX_ERR_NOT_SUPPORTED` whenever
`peer` is true and whenever `get_state_tracker()` returns no tracker. -/
theorem user_signal_not_supported {T : Type} (ALL : Nat) (UpdateState : T → Nat → Nat → T)
    (d : Dispatcher T) (clear_mask set_mask : Nat) (peer : Bool)
    (h : peer = true ∨ d.get_state_tracker = none) :
    (Dispatcher.user_signal ALL UpdateState d clear_mask set_mask peer).1 =
      ZX_ERR_NOT_SUPPORTED := by
  rcases h with h | h
  · subst h
    rw [user_signal_peer]
  · rw [user_signal_no_tracker _ _ _ _ _ _ h]

/-- Witness for C2: `peer` set, with masks reaching outside the user range. -/
theorem user_signal_not_supported_witness :
    (Dispatcher.user_signal 0xff000000
        (StateTracker.UpdateState_tracker (fun (o : Unit) _ => (o, false)))
        ⟨1024, 1, some (StateTracker.new 0x80 0)⟩ 0xffffffff 3 true).1 =
      ZX_ERR_NOT_SUPPORTED :=
  user_signal_not_supported 0xff000000 _ _ 0xffffffff 3 true (Or.inl rfl)

/-- C3: on an object whose tracker holds signals `s`, with `clear_mask` and
`set_mask` both within `ZX_USER_SIGNAL_ALL` and `peer` false, `user_signal`
returns `ZX_OK`, the tracker afterwards is the result of one
`UpdateState(clear_mask, set_mask)` on it, its signals are
`(s & ~clear_mask) | set_mask`, and on a recording tracker exactly the one call
`UpdateState(clear_mask, set_mask)` is appended to the log. -/
theorem user_signal_ok {Obs CInfo : Type} (ALL : Nat)
    (OnStateChange : Obs → Nat → Obs × Bool)
    (d : Dispatcher (StateTracker Obs)) (t : StateTracker Obs) (clear_mask set_mask : Nat)
    (ht : d.get_state_tracker = some t)
    (hclear : SignalsWithin ALL clear_mask) (hset : SignalsWithin ALL set_mask) :
    Dispatcher.user_signal ALL (StateTracker.UpdateState_tracker OnStateChange) d
        clear_mask set_mask false =
      (ZX_OK, ⟨d.koid_, d.handle_count_,
        some (StateTracker.UpdateState_tracker OnStateChange t clear_mask set_mask)⟩) ∧
    (StateTracker.UpdateState_tracker OnStateChange t clear_mask set_mask).GetSignalsState =
      (t.signals_ &&& not32 clear_mask) ||| set_mask ∧
    ∀ log : List (TrackerCall Obs CInfo),
      Dispatcher.user_signal ALL TrackerCall.logUpdateState
          ⟨d.koid_, d.handle_count_, some log⟩ clear_mask set_mask false =
        (ZX_OK, ⟨d.koid_, d.handle_count_,
          some (log ++ [TrackerCall.UpdateState clear_mask set_mask])⟩) := by
  have hs := and_not32_eq_zero_of_within hset
  have hc := and_not32_eq_zero_of_within hclear
  refine ⟨user_signal_valid ALL _ d t clear_mask set_mask ht hs hc, ?_, ?_⟩
  · exact UpdateState_signals OnStateChange t clear_mask set_mask
  · intro log
    exact user_signal_valid ALL _ _ log clear_mask set_mask rfl hs hc

/-- Witness for C3: a fresh tracker (signals `0x80`), clearing user signal 0
and setting user signal 1; the signals afterwards are `0x02000080`. -/
theorem user_signal_ok_witness :
    (Dispatcher.user_signal 0xff000000
        (StateTracker.UpdateState_tracker (fun (o : Unit) _ => (o, false)))
        ⟨1024, 1, some (StateTracker.new 0x80 0)⟩ 0x01000000 0x02000000 false).1 = ZX_OK ∧
    (StateTracker.UpdateState_tracker (fun (o : Unit) _ => (o, false))
        (StateTracker.new 0x80 0) 0x01000000 0x02000000).GetSignalsState = 0x02000080 := by
  have h := @user_signal_ok Unit Unit 0xff000000 (fun (o : Unit) _ => (o, false))
    ⟨1024, 1, some (StateTracker.new 0x80 0)⟩ (StateTracker.new 0x80 0)
    0x01000000 0x02000000 rfl (by decide) (by decide)
  refine ⟨by rw [h.1], ?_⟩
  rw [h.2.1]
  decide

/-! ## Dispatcher::add_observer -/

/-- C4: `add_observer(observer)` returns `ZX_ERR_NOT_SUPPORTED` if and only if
`get_state_tracker()` returns no tracker, and then the object is left as it
was; otherwise it returns `ZX_OK` and the tracker afterwards is the result of
one `AddObserver(observer, nullptr)` on it; on a recording tracker exactly the
one call `AddObserver(observer, nullptr)` is appended to the log. -/
theorem add_observer_spec {T Obs CInfo : Type} (AddObserver : T → Obs → Option CInfo → T)
    (d : Dispatcher T) (observer : Obs) :
    ((Dispatcher.add_observer AddObserver d observer).1 = ZX_ERR_NOT_SUPPORTED ↔
      d.get_state_tracker = none) ∧
    (d.get_state_tracker = none →
      Dispatcher.add_observer AddObserver d observer = (ZX_ERR_NOT_SUPPORTED, d)) ∧
    (∀ t, d.get_state_tracker = some t →
      Dispatcher.add_observer AddObserver d observer =
        (ZX_OK, ⟨d.koid_, d.handle_count_, some (AddObserver t observer none)⟩)) ∧
    (∀ log : List (TrackerCall Obs CInfo),
      Dispatcher.add_observer TrackerCall.logAddObserver
          ⟨d.koid_, d.handle_count_, some log⟩ observer =
        (ZX_OK, ⟨d.koid_, d.handle_count_,
          some (log ++ [TrackerCall.AddObserver observer none])⟩)) := by
  refine ⟨?_, ?_, ?_, ?_⟩
  · cases h : d.get_state_tracker <;> simp [Dispatcher.add_observer, h]
  · intro h
    simp [Dispatcher.add_observer, h]
  · intro t h
    simp [Dispatcher.add_observer, h]
  · intro log
    simp [Dispatcher.add_observer, TrackerCall.logAddObserver]

/-- Witness for C4: an object without a tracker is refused and left as it
was; on an object with a recording tracker observer `7` is added once. -/
theorem add_observer_spec_witness :
    Dispatcher.add_observer (TrackerCall.logAddObserver) (⟨1024, 1, none⟩ :
        Dispatcher (List (TrackerCall Nat Unit))) 7 =
      (ZX_ERR_NOT_SUPPORTED, ⟨1024, 1, none⟩) ∧
    Dispatcher.add_observer (TrackerCall.logAddObserver) (⟨1025, 1, some []⟩ :
        Dispatcher (List (TrackerCall Nat Unit))) 7 =
      (ZX_OK, ⟨1025, 1, some [TrackerCall.AddObserver 7 none]⟩) :=
  ⟨(add_observer_spec TrackerCall.logAddObserver ⟨1024, 1, none⟩ 7).2.1 rfl,
   (add_observer_spec TrackerCall.logAddObserver ⟨1025, 1, some []⟩ 7).2.2.1 [] rfl⟩

/-! ## Failure atomicity of Dispatcher::user_signal -/

/-- C10: `user_signal` returns only `ZX_OK`, `ZX_ERR_NOT_SUPPORTED` or
`ZX_ERR_INVALID_ARGS`, and when the status is not `ZX_OK` the object, tracker
included, is exactly as before the call: no `UpdateState` took place (on a
recording tracker the log is unchanged, on a modelled tracker the signal mask
and the observer list are unchanged). -/
theorem user_signal_failure_atomic {T : Type} (ALL : Nat) (UpdateState : T → Nat → Nat → T)
    (d : Dispatcher T) (clear_mask set_mask : Nat) (peer : Bool) :
    ((Dispatcher.user_signal ALL UpdateState d clear_mask set_mask peer).1 ≠ ZX_OK →
      (Dispatcher.user_signal ALL UpdateState d clear_mask set_mask peer).2 = d) ∧
    ((Dispatcher.user_signal ALL UpdateState d clear_mask set_mask peer).1 = ZX_OK ∨
     (Dispatcher.user_signal ALL UpdateState d clear_mask set_mask peer).1 =
        ZX_ERR_NOT_SUPPORTED ∨
     (Dispatcher.user_signal ALL UpdateState d clear_mask set_mask peer).1 =
        ZX_ERR_INVALID_ARGS) := by
  cases peer
  · cases ht : d.get_state_tracker with
    | none =>
      rw [user_signal_no_tracker _ _ _ _ _ _ ht]
      simp
    | some t =>
      by_cases h : set_mask &&& not32 ALL ≠ 0 ∨ clear_mask &&& not32 ALL ≠ 0
      · rw [user_signal_invalid ALL UpdateState d t clear_mask set_mask ht h]
        simp
      · have hs : set_mask &&& not32 ALL = 0 := by
          by_contra h0
          exact h (Or.inl h0)
        have hc : clear_mask &&& not32 ALL = 0 := by
          by_contra h0
          exact h (Or.inr h0)
        rw [user_signal_valid ALL UpdateState d t clear_mask set_mask ht hs hc]
        simp
  · rw [user_signal_peer]
    simp

/-- Witness for C10: a refused call (mask outside the user range) on a
recording tracker and on a modelled tracker with two observers leaves log,
signal mask and observer list as they were. -/
theorem user_signal_failure_atomic_witness :
    (Dispatcher.user_signal 0xff000000 TrackerCall.logUpdateState
        (⟨1024, 1, some []⟩ : Dispatcher (List (TrackerCall Unit Unit))) 1 0 false).2 =
      ⟨1024, 1, some []⟩ ∧
    (Dispatcher.user_signal 0xff000000
        (StateTracker.UpdateState_tracker (fun (o : Nat) _ => (o + 1, true)))
        ⟨1024, 1, some ⟨0x80, [5, 6]⟩⟩ 0 0x01000001 false).2 =
      ⟨1024, 1, some ⟨0x80, [5, 6]⟩⟩ :=
  ⟨(user_signal_failure_atomic 0xff000000 TrackerCall.logUpdateState
      ⟨1024, 1, some []⟩ 1 0 false).1 (by decide),
   (user_signal_failure_atomic 0xff000000
      (StateTracker.UpdateState_tracker (fun (o : Nat) _ => (o + 1, true)))
      ⟨1024, 1, some ⟨0x80, [5, 6]⟩⟩ 0 0x01000001 false).1 (by decide)⟩

/-! ## Kernel object ids -/

theorem GenerateKernelObjectIds_fst (n : Nat) :
    ∀ g, g < 2 ^ 64 →
      (GenerateKernelObjectIds n g).1 = (List.range n).map (fun k => (g + k) % 2 ^ 64) := by
  induction n with
  | zero => intro g _; rfl
  | succ n ih =>
    intro g hg
    have hlt : (g + 1) % 2 ^ 64 < 2 ^ 64 := Nat.mod_lt _ (by norm_num)
    simp only [GenerateKernelObjectIds, GenerateKernelObjectId]
    rw [ih _ hlt, List.range_succ_eq_map, List.map_cons, List.map_map]
    congr 1
    · show g = (g + 0) % 2 ^ 64
      omega
    · apply List.map_congr_left
      intro k _
      simp only [Function.comp, Nat.succ_eq_add_one]
      omega

theorem GenerateKernelObjectIds_range' (n g : Nat) (h : g + n ≤ 2 ^ 64) :
    (GenerateKernelObjectIds n g).1 = List.range' g n := by
  have hn : n = 0 ∨ g < 2 ^ 64 := by omega
  rcases hn with rfl | hg
  · rfl
  · rw [GenerateKernelObjectIds_fst n g hg, List.range'_eq_map_range]
    apply List.map_congr_left
    intro k hk
    have := List.mem_range.mp hk
    show (g + k) % 2 ^ 64 = g + k
    omega

theorem new_koids_eq {T : Type} (n : Nat) :
    ∀ (trackers : Nat → Option T) (g : Nat),
      Dispatcher.new_koids trackers n g = GenerateKernelObjectIds n g := by
  induction n with
  | zero => intro _ _; rfl
  | succ n ih =>
    intro trackers g
    simp only [Dispatcher.new_koids, Dispatcher.new, GenerateKernelObjectIds, ih]

/-- C5, as stated, fails for large `N`: the counter is a 64-bit integer, so the
call number `2 ^ 64 - 1023` (after `2 ^ 64 - 1024` earlier ones) finds it
wrapped around and returns koid `0`, which is below 1024. -/
theorem koid_below_reserved_after_wrap :
    0 ∈ (GenerateKernelObjectIds (2 ^ 64 - 1023) global_koid_init).1 ∧
    ¬ ∀ k ∈ (GenerateKernelObjectIds (2 ^ 64 - 1023) global_koid_init).1, 1024 ≤ k := by
  have h0 : 0 ∈ (GenerateKernelObjectIds (2 ^ 64 - 1023) global_koid_init).1 := by
    rw [GenerateKernelObjectIds_fst _ _ (by norm_num [global_koid_init])]
    exact List.mem_map.mpr ⟨2 ^ 64 - 1024, List.mem_range.mpr (by norm_num),
      by norm_num [global_koid_init]⟩
  exact ⟨h0, fun h => absurd (h 0 h0) (by norm_num)⟩

/-- C5, amended: for every `N ≤ 2 ^ 64 - 1024`, the koids returned by `N`
sequential calls of `GenerateKernelObjectId` from the initial counter are
`1024, 1025, ..., 1024 + N - 1`: strictly increasing, pairwise distinct, none
below 1024, the first one (if any) exactly 1024; and they are the `koid_` of `N`
dispatchers constructed in sequence. -/
theorem koids_increasing_distinct {T : Type} (trackers : Nat → Option T) (N : Nat)
    (hN : N ≤ 2 ^ 64 - 1024) :
    (GenerateKernelObjectIds N global_koid_init).1 = List.range' 1024 N ∧
    (GenerateKernelObjectIds N global_koid_init).1.Pairwise (fun a b => a < b) ∧
    (GenerateKernelObjectIds N global_koid_init).1.Nodup ∧
    (∀ k ∈ (GenerateKernelObjectIds N global_koid_init).1, 1024 ≤ k) ∧
    (GenerateKernelObjectIds N global_koid_init).1.head? =
      (if N = 0 then none else some 1024) ∧
    (Dispatcher.new_koids trackers N global_koid_init).1 =
      (GenerateKernelObjectIds N global_koid_init).1 := by
  have e : (GenerateKernelObjectIds N global_koid_init).1 = List.range' 1024 N :=
    GenerateKernelObjectIds_range' N 1024 (by omega)
  refine ⟨e, ?_, ?_, ?_, ?_, ?_⟩
  · rw [e]
    exact List.pairwise_lt_range' 1024 N
  · rw [e]
    exact List.nodup_range' 1024 N
  · rw [e]
    intro k hk
    exact (List.mem_range'_1.mp hk).1
  · rw [e]
    exact List.head?_range' N
  · rw [new_koids_eq]

/-- Witness for C5 (amended): three dispatchers constructed in sequence get
the koids 1024, 1025, 1026. -/
theorem koids_increasing_distinct_witness :
    (Dispatcher.new_koids (fun _ => (none : Option Unit)) 3 global_koid_init).1 =
      [1024, 1025, 1026] ∧
    (GenerateKernelObjectIds 3 global_koid_init).1.Pairwise (fun a b => a < b) := by
  have h := koids_increasing_distinct (fun _ => (none : Option Unit)) 3 (by norm_num)
  refine ⟨?_, h.2.1⟩
  rw [h.2.2.2.2.2, h.1]
  rfl

/-! ## StateTracker construction -/

theorem or_and_self_right (s l : Nat) : (s ||| l) &&& l = l := by
  apply Nat.eq_of_testBit_eq
  intro i
  rw [Nat.testBit_and, Nat.testBit_or]
  cases s.testBit i <;> cases l.testBit i <;> rfl

/-- C6: a tracker constructed with initial mask `s` reports
`GetSignalsState() == s | ZX_SIGNAL_LAST_HANDLE`; the last-handle bit is
therefore set in every fresh tracker, and the default-constructed tracker holds
exactly `ZX_SIGNAL_LAST_HANDLE`. -/
theorem StateTracker_new_signals {Obs : Type} (ZX_SIGNAL_LAST_HANDLE s : Nat) :
    (StateTracker.new ZX_SIGNAL_LAST_HANDLE s : StateTracker Obs).GetSignalsState =
      s ||| ZX_SIGNAL_LAST_HANDLE ∧
    (StateTracker.new ZX_SIGNAL_LAST_HANDLE s : StateTracker Obs).GetSignalsState &&&
      ZX_SIGNAL_LAST_HANDLE = ZX_SIGNAL_LAST_HANDLE ∧
    (StateTracker.new_default ZX_SIGNAL_LAST_HANDLE : StateTracker Obs).GetSignalsState =
      ZX_SIGNAL_LAST_HANDLE := by
  refine ⟨rfl, ?_, ?_⟩
  · exact or_and_self_right s ZX_SIGNAL_LAST_HANDLE
  · show 0 ||| ZX_SIGNAL_LAST_HANDLE = ZX_SIGNAL_LAST_HANDLE
    exact Nat.zero_or _

/-! ## StateTracker::UpdateState without a net change -/

theorem testBit_eq_false_of_ge_32 {x i : Nat} (hx : x < 2 ^ 32) (hi : 32 ≤ i) :
    x.testBit i = false := by
  cases h : x.testBit i
  · rfl
  · have := lt_32_of_testBit hx h
    omega

theorem and_not32_zero_or_of_within {s m : Nat} (hs : s < 2 ^ 32) (h : SignalsWithin s m) :
    (s &&& not32 0) ||| m = s := by
  apply Nat.eq_of_testBit_eq
  intro i
  have hi := congrArg (fun n => Nat.testBit n i) h
  simp only [Nat.testBit_and] at hi
  rw [Nat.testBit_or, Nat.testBit_and, testBit_not32, Nat.zero_testBit]
  by_cases h32 : i < 32
  · cases hm : m.testBit i <;> cases hb : s.testBit i <;> simp_all
  · have hb := testBit_eq_false_of_ge_32 hs (Nat.le_of_not_lt h32)
    cases hm : m.testBit i <;> simp_all

theorem and_not32_or_zero_of_disjoint {s m : Nat} (hs : s < 2 ^ 32) (h : SignalsDisjoint m s) :
    (s &&& not32 m) ||| 0 = s := by
  apply Nat.eq_of_testBit_eq
  intro i
  have hi := congrArg (fun n => Nat.testBit n i) h
  simp only [Nat.testBit_and, Nat.zero_testBit] at hi
  rw [Nat.testBit_or, Nat.testBit_and, testBit_not32, Nat.zero_testBit]
  by_cases h32 : i < 32
  · cases hm : m.testBit i <;> cases hb : s.testBit i <;> simp_all
  · have hb := testBit_eq_false_of_ge_32 hs (Nat.le_of_not_lt h32)
    simp [hb]

theorem UpdateState_unchanged {Obs : Type} (OnStateChange : Obs → Nat → Obs × Bool)
    (t : StateTracker Obs) (clear_mask set_mask : Nat)
    (h : (t.signals_ &&& not32 clear_mask) ||| set_mask = t.signals_) :
    StateTracker.UpdateState OnStateChange t clear_mask set_mask = (t, []) := by
  unfold StateTracker.UpdateState
  simp only [h, if_true]

/-- C7: for every tracker (32-bit signals `s`, any observer list),
`UpdateState(clear_mask, set_mask)` with `(s & ~clear_mask) | set_mask == s`
invokes no observer callback and leaves the stored mask and the observer list
as they were; this covers `UpdateState(0, m)` with `m` a subset of `s` and
`UpdateState(m, 0)` with `m` disjoint from `s`. -/
theorem UpdateState_noop {Obs : Type} (OnStateChange : Obs → Nat → Obs × Bool)
    (t : StateTracker Obs) (clear_mask set_mask m : Nat) (hs : t.signals_ < 2 ^ 32) :
    ((t.signals_ &&& not32 clear_mask) ||| set_mask = t.signals_ →
      StateTracker.UpdateState OnStateChange t clear_mask set_mask = (t, [])) ∧
    (SignalsWithin t.signals_ m →
      StateTracker.UpdateState OnStateChange t 0 m = (t, [])) ∧
    (SignalsDisjoint m t.signals_ →
      StateTracker.UpdateState OnStateChange t m 0 = (t, [])) :=
  ⟨UpdateState_unchanged OnStateChange t clear_mask set_mask,
   fun h => UpdateState_unchanged OnStateChange t 0 m (and_not32_zero_or_of_within hs h),
   fun h => UpdateState_unchanged OnStateChange t m 0 (and_not32_or_zero_of_disjoint hs h)⟩

/-- Witness for C7: a tracker holding `0x01000080` with two observers that
would both ask for removal; setting the bits `0x80` it already holds, and
clearing the bits `0x02000000` it does not hold, changes nothing and calls no
observer. -/
theorem UpdateState_noop_witness :
    StateTracker.UpdateState (fun (o : Nat) _ => (o + 1, true))
        ⟨0x01000080, [5, 6]⟩ 0 0x80 = (⟨0x01000080, [5, 6]⟩, []) ∧
    StateTracker.UpdateState (fun (o : Nat) _ => (o + 1, true))
        ⟨0x01000080, [5, 6]⟩ 0x02000000 0 = (⟨0x01000080, [5, 6]⟩, []) :=
  ⟨(UpdateState_noop (fun (o : Nat) _ => (o + 1, true)) ⟨0x01000080, [5, 6]⟩
      0 0 0x80 (by decide)).2.1 (by decide),
   (UpdateState_noop (fun (o : Nat) _ => (o + 1, true)) ⟨0x01000080, [5, 6]⟩
      0 0 0x02000000 (by decide)).2.2 (by decide)⟩

/-- A net change does notify: every observer is called once with the new
signals, and those asking for removal are unlinked. -/
theorem UpdateState_change_notifies :
    StateTracker.UpdateState (fun (o : Nat) _ => (o + 1, decide (o = 5)))
        ⟨0x80, [5, 6]⟩ 0 0x01000000 =
      (⟨0x01000080, [7]⟩, [(5, 0x01000080), (6, 0x01000080)]) := by
  decide

/-! ## Cookie jars -/

/-- C8: from a freshly constructed jar and for scopes `A ≠ B`,
`SetCookie(jar, A, v)` succeeds; afterwards `GetCookie(jar, B)` fails with the
scope-mismatch error and writes nothing, `GetCookie(jar, A)` succeeds and
returns `v`; `InvalidateCookie(jar)` succeeds, and after it (on this jar or any
other) `SetCookie(jar, S, w)` succeeds for every scope `S`. -/
theorem cookie_scoping (ZX_KOID_INVALID A B v S w : Nat) (jar : CookieJar) (hAB : A ≠ B) :
    (StateTracker.SetCookie ZX_KOID_INVALID (CookieJar.new ZX_KOID_INVALID) A v).1 = ZX_OK ∧
    StateTracker.GetCookie
        (StateTracker.SetCookie ZX_KOID_INVALID (CookieJar.new ZX_KOID_INVALID) A v).2 B =
      (ZX_ERR_ACCESS_DENIED, none) ∧
    StateTracker.GetCookie
        (StateTracker.SetCookie ZX_KOID_INVALID (CookieJar.new ZX_KOID_INVALID) A v).2 A =
      (ZX_OK, some v) ∧
    (StateTracker.InvalidateCookie ZX_KOID_INVALID
        (StateTracker.SetCookie ZX_KOID_INVALID (CookieJar.new ZX_KOID_INVALID) A v).2).1 =
      ZX_OK ∧
    (StateTracker.SetCookie ZX_KOID_INVALID
        (StateTracker.InvalidateCookie ZX_KOID_INVALID
          (StateTracker.SetCookie ZX_KOID_INVALID
            (CookieJar.new ZX_KOID_INVALID) A v).2).2 S w).1 = ZX_OK ∧
    (StateTracker.SetCookie ZX_KOID_INVALID
        (StateTracker.InvalidateCookie ZX_KOID_INVALID jar).2 S w).1 = ZX_OK := by
  have hset : StateTracker.SetCookie ZX_KOID_INVALID (CookieJar.new ZX_KOID_INVALID) A v =
      (ZX_OK, ⟨A, v⟩) := by
    simp [StateTracker.SetCookie, CookieJar.new]
  have hinv : ∀ j : CookieJar,
      (StateTracker.SetCookie ZX_KOID_INVALID
        (StateTracker.InvalidateCookie ZX_KOID_INVALID j).2 S w).1 = ZX_OK := by
    intro j
    simp [StateTracker.SetCookie, StateTracker.InvalidateCookie]
  refine ⟨by rw [hset], ?_, ?_, rfl, hinv _, hinv jar⟩
  · rw [hset]
    simp [StateTracker.GetCookie, hAB]
  · rw [hset]
    simp [StateTracker.GetCookie]

/-- Witness for C8: scopes 1030 and 1031, cookie 42, with
`ZX_KOID_INVALID = 0`. -/
theorem cookie_scoping_witness :
    StateTracker.GetCookie (StateTracker.SetCookie 0 (CookieJar.new 0) 1030 42).2 1031 =
      (ZX_ERR_ACCESS_DENIED, none) ∧
    StateTracker.GetCookie (StateTracker.SetCookie 0 (CookieJar.new 0) 1030 42).2 1030 =
      (ZX_OK, some 42) ∧
    (StateTracker.SetCookie 0 (StateTracker.InvalidateCookie 0 ⟨1030, 42⟩).2 1031 7).1 =
      ZX_OK :=
  have h := cookie_scoping 0 1030 1031 42 1031 7 ⟨1030, 42⟩ (by decide)
  ⟨h.2.1, h.2.2.1, h.2.2.2.2.2⟩

/-! ## Dispatcher::user_signal leaves the kernel-reserved bits alone -/

theorem UpdateState_preserves_outside {Obs : Type} (ALL : Nat)
    (OnStateChange : Obs → Nat → Obs × Bool) (t : StateTracker Obs) (clear_mask set_mask : Nat)
    (hs : t.signals_ < 2 ^ 32) (hm : set_mask < 2 ^ 32)
    (hset : set_mask &&& not32 ALL = 0) (hclear : clear_mask &&& not32 ALL = 0)
    (i : Nat) (hi : ALL.testBit i = false) :
    (StateTracker.UpdateState_tracker OnStateChange t clear_mask set_mask).signals_.testBit i =
      t.signals_.testBit i := by
  unfold StateTracker.UpdateState_tracker
  rw [UpdateState_signals, Nat.testBit_or, Nat.testBit_and, testBit_not32]
  have h1 := congrArg (fun n => Nat.testBit n i) hset
  have h2 := congrArg (fun n => Nat.testBit n i) hclear
  simp only [Nat.testBit_and, testBit_not32, Nat.zero_testBit, hi] at h1 h2
  by_cases h32 : i < 32
  · cases hb : t.signals_.testBit i <;> cases hc : clear_mask.testBit i <;>
      cases hk : set_mask.testBit i <;> simp_all
  · have hb := testBit_eq_false_of_ge_32 hs (Nat.le_of_not_lt h32)
    have hk := testBit_eq_false_of_ge_32 hm (Nat.le_of_not_lt h32)
    simp [hb, hk]

theorem and_eq_of_testBit_outside {a b l all : Nat} (hl : SignalsDisjoint l all)
    (h : ∀ i, all.testBit i = false → a.testBit i = b.testBit i) : a &&& l = b &&& l := by
  apply Nat.eq_of_testBit_eq
  intro i
  have hi := congrArg (fun n => Nat.testBit n i) hl
  simp only [Nat.testBit_and, Nat.zero_testBit] at hi
  rw [Nat.testBit_and, Nat.testBit_and]
  cases hb : l.testBit i
  · simp
  · have ha : all.testBit i = false := by
      cases hall : all.testBit i
      · rfl
      · simp [hb, hall] at hi
    rw [h i ha]

/-- C9: on an object whose tracker holds 32-bit signals `s`, for all 32-bit
masks and either `peer` flag, after `user_signal` (whatever its status) the
object still has its tracker and every bit of the tracker's signals outside
`ZX_USER_SIGNAL_ALL` equals that bit of `s`; so when
`ZX_SIGNAL_LAST_HANDLE` lies outside `ZX_USER_SIGNAL_ALL`, `user_signal`
neither sets nor clears it, and on a tracker fresh from its constructor the
bit stays set. -/
theorem user_signal_preserves_reserved {Obs : Type} (ALL ZX_SIGNAL_LAST_HANDLE : Nat)
    (OnStateChange : Obs → Nat → Obs × Bool)
    (d : Dispatcher (StateTracker Obs)) (t : StateTracker Obs)
    (clear_mask set_mask : Nat) (peer : Bool)
    (ht : d.get_state_tracker = some t)
    (hs : t.signals_ < 2 ^ 32) (hm : set_mask < 2 ^ 32) :
    ∃ t', (Dispatcher.user_signal ALL (StateTracker.UpdateState_tracker OnStateChange) d
        clear_mask set_mask peer).2.get_state_tracker = some t' ∧
      (∀ i, ALL.testBit i = false → t'.signals_.testBit i = t.signals_.testBit i) ∧
      (SignalsDisjoint ZX_SIGNAL_LAST_HANDLE ALL →
        t'.signals_ &&& ZX_SIGNAL_LAST_HANDLE = t.signals_ &&& ZX_SIGNAL_LAST_HANDLE) ∧
      (SignalsDisjoint ZX_SIGNAL_LAST_HANDLE ALL →
        ∀ s0, t = StateTracker.new ZX_SIGNAL_LAST_HANDLE s0 →
          t'.signals_ &&& ZX_SIGNAL_LAST_HANDLE = ZX_SIGNAL_LAST_HANDLE) := by
  have key : ∃ t', (Dispatcher.user_signal ALL (StateTracker.UpdateState_tracker OnStateChange)
        d clear_mask set_mask peer).2.get_state_tracker = some t' ∧
      (∀ i, ALL.testBit i = false → t'.signals_.testBit i = t.signals_.testBit i) := by
    cases peer
    · by_cases h : set_mask &&& not32 ALL ≠ 0 ∨ clear_mask &&& not32 ALL ≠ 0
      · rw [user_signal_invalid ALL _ d t clear_mask set_mask ht h]
        exact ⟨t, ht, fun _ _ => rfl⟩
      · have hset : set_mask &&& not32 ALL = 0 := by
          by_contra h0
          exact h (Or.inl h0)
        have hclear : clear_mask &&& not32 ALL = 0 := by
          by_contra h0
          exact h (Or.inr h0)
        rw [user_signal_valid ALL _ d t clear_mask set_mask ht hset hclear]
        exact ⟨_, rfl, UpdateState_preserves_outside ALL OnStateChange t clear_mask set_mask
          hs hm hset hclear⟩
    · rw [user_signal_peer]
      exact ⟨t, ht, fun _ _ => rfl⟩
  obtain ⟨t', h1, h2⟩ := key
  refine ⟨t', h1, h2, fun hl => and_eq_of_testBit_outside hl h2, ?_⟩
  intro hl s0 hnew
  rw [and_eq_of_testBit_outside hl h2, hnew]
  exact or_and_self_right s0 ZX_SIGNAL_LAST_HANDLE

/-- Witness for C9: a fresh tracker (`ZX_SIGNAL_LAST_HANDLE = 0x80`,
`ZX_USER_SIGNAL_ALL = 0xff000000`) after setting every user signal and clearing
every user signal: the tracker holds `0xff000080`, the last-handle bit still
set. -/
theorem user_signal_preserves_reserved_witness :
    (Dispatcher.user_signal 0xff000000
        (StateTracker.UpdateState_tracker (fun (o : Unit) _ => (o, false)))
        ⟨1024, 1, some (StateTracker.new 0x80 0)⟩ 0xff000000 0xff000000 false).2 =
      ⟨1024, 1, some ⟨0xff000080, []⟩⟩ ∧
    ∃ t' : StateTracker Unit,
      (Dispatcher.user_signal 0xff000000
        (StateTracker.UpdateState_tracker (fun (o : Unit) _ => (o, false)))
        ⟨1024, 1, some (StateTracker.new 0x80 0)⟩ 0xff000000 0xff000000
          false).2.get_state_tracker = some t' ∧
      t'.signals_ &&& 0x80 = 0x80 := by
  refine ⟨by decide, ?_⟩
  obtain ⟨t', h1, _, _, h4⟩ := user_signal_preserves_reserved 0xff000000 0x80
    (fun (o : Unit) _ => (o, false)) ⟨1024, 1, some (StateTracker.new 0x80 0)⟩
    (StateTracker.new 0x80 0) 0xff000000 0xff000000 false rfl (by decide) (by decide)
  exact ⟨t', h1, h4 (by decide) 0 rfl⟩

end Zircon
